import Mathlib

/-!
Verification development for the SuperStore KPI dashboard (`src/app.py`).

The script's filter-and-aggregate pipeline is shallowly embedded here:
the dataset is a list of order rows, each pandas operation is translated
to an explicit list operation, and float division (which can produce
`inf`/`nan` in pandas) is modelled by the `PFloat` type below.
Dates are encoded as naturals in `yyyymmdd` form, an order-isomorphic
encoding of the script's datetimes.
-/

namespace SuperStore

/-- One row of the source dataset (`app.py` loads it from the spreadsheet).
Categorical columns may be null (pandas `NaN`), hence `Option String`. -/
structure OrderRow where
  orderDate : Nat
  region : Option String
  state : Option String
  category : Option String
  subCategory : Option String
  productName : String
  sales : Rat
  quantity : Int
  profit : Rat
deriving DecidableEq, Repr

/-- Model of a Python/pandas float result of a division: either a finite
value or one of the non-finite IEEE values `inf`, `-inf`, `nan`. -/
inductive PFloat where
  | finite (q : Rat)
  | posInf
  | negInf
  | nan
deriving DecidableEq, Repr

/-- Whether a `PFloat` is a finite numeric value. -/
def PFloat.isFinite : PFloat → Bool
  | .finite _ => true
  | _ => false

/-- Pandas/NumPy float division: finite quotient when the denominator is
nonzero; `nan` for `0/0`; signed infinity otherwise. Never raises. -/
def pdDiv (p s : Rat) : PFloat :=
  if s ≠ 0 then .finite (p / s)
  else if p = 0 then .nan
  else if 0 < p then .posInf
  else .negInf

/-- `sorted(xs.dropna().unique().tolist())` on a column already projected
to a list: deduplicate, then sort ascending. -/
def sortKeys {α : Type} [LinearOrder α] [DecidableEq α] (l : List α) : List α :=
  l.dedup.insertionSort (· ≤ ·)

/-- Option list of a categorical column: `sorted(df[col].dropna().unique().tolist())`
(`app.py` lines 27, 33, 39, 45). -/
def optionsOf (col : OrderRow → Option String) (df : List OrderRow) : List String :=
  sortKeys (df.filterMap col)

/-- One cascading filter stage (`app.py` lines 29-30, 35-36, 41-42, 47-48):
`"All"` is the no-constraint sentinel, otherwise keep rows whose column
equals the selected value (a null cell never equals a string). -/
def catFilter (col : OrderRow → Option String) (sel : String) (df : List OrderRow) :
    List OrderRow :=
  if sel = "All" then df else df.filter (fun r => col r = some sel)

/-- `df["Sales"].sum()` (`app.py` line 54). -/
def total_sales (df : List OrderRow) : Rat := (df.map (·.sales)).sum

/-- `df["Quantity"].sum()` (`app.py` line 55). -/
def total_quantity (df : List OrderRow) : Int := (df.map (·.quantity)).sum

/-- `df["Profit"].sum()` (`app.py` line 56). -/
def total_profit (df : List OrderRow) : Rat := (df.map (·.profit)).sum

/-- `margin_rate = total_profit / total_sales if total_sales != 0 else 0`
(`app.py` line 57). -/
def margin_rate (df : List OrderRow) : PFloat :=
  if total_sales df ≠ 0 then pdDiv (total_profit df) (total_sales df)
  else .finite 0

/-- Date bounds of the filtered dataset (`app.py` lines 70-76): min and max
`Order Date` when nonempty, otherwise the fixed fallback year
2020-01-01 .. 2020-12-31. -/
def dateBounds (df : List OrderRow) : Nat × Nat :=
  match df.map (·.orderDate) with
  | [] => (20200101, 20201231)
  | d :: ds => (ds.foldl min d, ds.foldl max d)

/-- `df[(df["Order Date"] >= lo) & (df["Order Date"] <= hi)]`
(`app.py` line 87): inclusive on both endpoints. -/
def df_time_filtered (lo hi : Nat) (df : List OrderRow) : List OrderRow :=
  df.filter (fun r => lo ≤ r.orderDate ∧ r.orderDate ≤ hi)

/-- `kpi_options` (`app.py` line 90). -/
def kpi_options : List String := ["Sales", "Quantity", "Profit", "Margin Rate"]

/-- The dataset after the Region stage (`app.py` lines 28-30). -/
def df_afterRegion (df : List OrderRow) (sr : String) : List OrderRow :=
  catFilter (·.region) sr df

/-- The dataset after the State stage (`app.py` lines 34-36). -/
def df_afterState (df : List OrderRow) (sr ss : String) : List OrderRow :=
  catFilter (·.state) ss (df_afterRegion df sr)

/-- The dataset after the Category stage (`app.py` lines 40-42). -/
def df_afterCategory (df : List OrderRow) (sr ss sc : String) : List OrderRow :=
  catFilter (·.category) sc (df_afterState df sr ss)

/-- The dataset after the Sub-Category stage (`app.py` lines 46-48):
the fully categorically filtered dataset the KPI tiles are computed on. -/
def df_afterSubcat (df : List OrderRow) (sr ss sc ssc : String) : List OrderRow :=
  catFilter (·.subCategory) ssc (df_afterCategory df sr ss sc)

/-- Region option list (`app.py` line 27), from the full dataset. -/
def regions (df : List OrderRow) : List String := optionsOf (·.region) df

/-- State option list (`app.py` line 33), from the region-filtered dataset. -/
def states (df : List OrderRow) (sr : String) : List String :=
  optionsOf (·.state) (df_afterRegion df sr)

/-- Category option list (`app.py` line 39), from the dataset narrowed by
Region and State. -/
def categories (df : List OrderRow) (sr ss : String) : List String :=
  optionsOf (·.category) (df_afterState df sr ss)

/-- Sub-Category option list (`app.py` line 45), from the dataset narrowed
by Region, State and Category. -/
def subcats (df : List OrderRow) (sr ss sc : String) : List String :=
  optionsOf (·.subCategory) (df_afterCategory df sr ss sc)

/-- One row of the per-date aggregate table (`app.py` lines 96-101). -/
structure DailyRow where
  orderDate : Nat
  sales : Rat
  quantity : Int
  profit : Rat
  marginRate : PFloat
deriving DecidableEq, Repr

/-- The rows of `dtf` falling in the group of `Order Date` value `d`. -/
def dateGroup (dtf : List OrderRow) (d : Nat) : List OrderRow :=
  dtf.filter (fun r => r.orderDate = d)

/-- The per-date aggregation (`app.py` lines 95-103): when the
time-filtered dataset is nonempty, group by `Order Date` (pandas sorts
group keys ascending), sum Sales/Quantity/Profit per date, and divide
Profit by Sales per date with no zero guard; when empty, an empty table. -/
def dailyGrouped (dtf : List OrderRow) : List DailyRow :=
  if dtf.isEmpty then []
  else
    (sortKeys (dtf.map (·.orderDate))).map fun d =>
      ⟨d, total_sales (dateGroup dtf d), total_quantity (dateGroup dtf d),
        total_profit (dateGroup dtf d),
        pdDiv (total_profit (dateGroup dtf d)) (total_sales (dateGroup dtf d))⟩

/-- One row of the per-product Sales aggregate (`app.py` lines 125-131). -/
structure ProductSales where
  productName : String
  sales : Rat
deriving DecidableEq, Repr

/-- The rows of `dtf` in the group of product `pn`. -/
def productGroup (dtf : List OrderRow) (pn : String) : List OrderRow :=
  dtf.filter (fun r => r.productName = pn)

/-- Descending-by-Sales comparison used by
`sort_values(by="Sales", ascending=False)`. -/
def bySalesDesc (a b : ProductSales) : Prop := b.sales ≤ a.sales

instance : DecidableRel bySalesDesc :=
  fun a b => inferInstanceAs (Decidable (b.sales ≤ a.sales))

instance : IsTotal ProductSales bySalesDesc :=
  ⟨fun a b => le_total b.sales a.sales⟩

instance : IsTrans ProductSales bySalesDesc :=
  ⟨fun _ _ _ h1 h2 => le_trans h2 h1⟩

/-- `df_time_filtered.groupby("Product Name")["Sales"].sum().reset_index()
.sort_values(by="Sales", ascending=False)` (`app.py` lines 125-129), before
`.head(10)`: group keys ascending, sum Sales per product, then sort by the
Sales column descending. -/
def product_sales_sorted (dtf : List OrderRow) : List ProductSales :=
  ((sortKeys (dtf.map (·.productName))).map fun pn =>
      (⟨pn, total_sales (productGroup dtf pn)⟩ : ProductSales)
  ).insertionSort bySalesDesc

/-- The top-10 table (`app.py` lines 123-131): rendered only when the
time-filtered dataset is nonempty (else the chart shows no data, modelled
as the empty list); `.head(10)` keeps the first ten rows. -/
def product_sales (dtf : List OrderRow) : List ProductSales :=
  if dtf.isEmpty then [] else (product_sales_sorted dtf).take 10

/-- The user-chosen parameters of one dashboard run: the four cascading
filter selections, the date-range slider endpoints, and the KPI radio
choice. -/
structure Params where
  selRegion : String
  selState : String
  selCategory : String
  selSubcat : String
  dateLo : Nat
  dateHi : Nat
  selectedKpi : String
deriving DecidableEq, Repr

/-- Everything the dashboard derives from the data in one run: the four
KPI tiles, the per-date table behind the line chart, and the top-10 table
behind the bar chart. -/
structure Output where
  totSales : Rat
  totQuantity : Int
  totProfit : Rat
  marginRate : PFloat
  daily : List DailyRow
  top10 : List ProductSales
deriving DecidableEq, Repr

/-- The data-dependent part of one script run (`app.py` lines 54-131),
given the categorically filtered dataset `d4` and the date-slider
endpoints: the KPI tiles are computed on `d4`, then the date filter is
applied, then the two aggregate tables are computed on the time-filtered
dataset. The selected KPI only chooses which column the line chart plots;
it does not change any data. -/
def pipelineAux (d4 : List OrderRow) (lo hi : Nat) : Output :=
  ⟨total_sales d4, total_quantity d4, total_profit d4, margin_rate d4,
    dailyGrouped (df_time_filtered lo hi d4),
    product_sales (df_time_filtered lo hi d4)⟩

/-- One full top-to-bottom run of the script's pipeline (`app.py` lines
27-131): the four cascading categorical filters applied in fixed order,
then everything `pipelineAux` derives from the filtered data. -/
def pipeline (df : List OrderRow) (p : Params) : Output :=
  pipelineAux (df_afterSubcat df p.selRegion p.selState p.selCategory p.selSubcat)
    p.dateLo p.dateHi

/-- Two successive top-to-bottom runs of the script with the same widget
inputs, both reading the same cached base dataset (never mutated by any
filter stage, which only builds narrowed copies). -/
def runTwice (df : List OrderRow) (p : Params) : Output × Output :=
  (pipeline df p, pipeline df p)

/-- Descending comparison on the second component, for sorting
(product, KPI value) pairs. -/
def byValDesc (a b : String × Rat) : Prop := b.2 ≤ a.2

instance : DecidableRel byValDesc :=
  fun a b => inferInstanceAs (Decidable (b.2 ≤ a.2))

/-- The KPI value of an aggregated product row under the spec's rules:
the summed column for Sales/Quantity/Profit, and the guarded ratio
Profit/Sales for Margin Rate. -/
def claimedKpiValue (kpi : String) (s : Rat) (q : Int) (p : Rat) : Rat :=
  if kpi = "Sales" then s
  else if kpi = "Quantity" then (q : Rat)
  else if kpi = "Profit" then p
  else if s ≠ 0 then p / s else 0

/-- The spec claim's top-N behaviour, formalised from its words for
comparison with the code's `product_sales`: group by Product Name, sum
Sales, Quantity and Profit per product, derive Margin Rate, and return
the (names of the) 10 products with the largest value of the SELECTED KPI
in descending order of that KPI. -/
def claimedTopProducts (dtf : List OrderRow) (kpi : String) : List String :=
  (((((sortKeys (dtf.map (·.productName))).map fun pn =>
      (pn,
        claimedKpiValue kpi
          (total_sales (productGroup dtf pn))
          (total_quantity (productGroup dtf pn))
          (total_profit (productGroup dtf pn)))
  ).insertionSort byValDesc).take 10).map (·.1))

/-! ### Helper lemmas -/

theorem mem_sortKeys {α : Type} [LinearOrder α] [DecidableEq α] {l : List α} {a : α} :
    a ∈ sortKeys l ↔ a ∈ l := by
  unfold sortKeys
  rw [List.mem_insertionSort, List.mem_dedup]

theorem sorted_le_sortKeys {α : Type} [LinearOrder α] [DecidableEq α] (l : List α) :
    (sortKeys l).Sorted (· ≤ ·) :=
  List.sorted_insertionSort _ _

theorem nodup_sortKeys {α : Type} [LinearOrder α] [DecidableEq α] (l : List α) :
    (sortKeys l).Nodup :=
  ((List.perm_insertionSort _ _).nodup_iff).mpr (List.nodup_dedup l)

theorem sorted_lt_sortKeys {α : Type} [LinearOrder α] [DecidableEq α] (l : List α) :
    (sortKeys l).Sorted (· < ·) :=
  (sorted_le_sortKeys l).lt_of_le (nodup_sortKeys l)

theorem mem_optionsOf {col : OrderRow → Option String} {df : List OrderRow} {x : String} :
    x ∈ optionsOf col df ↔ some x ∈ df.map col := by
  unfold optionsOf
  rw [mem_sortKeys, List.mem_filterMap, List.mem_map]

theorem pairwise_take_drop {α : Type} {R : α → α → Prop} {l : List α}
    (h : l.Pairwise R) (n : Nat) :
    ∀ a ∈ l.take n, ∀ b ∈ l.drop n, R a b := by
  have h2 : (l.take n ++ l.drop n).Pairwise R := by
    rw [List.take_append_drop]; exact h
  exact fun a ha b hb => (List.pairwise_append.mp h2).2.2 a ha b hb

theorem foldl_min_le (ds : List Nat) (d : Nat) :
    ∀ x ∈ d :: ds, ds.foldl min d ≤ x := by
  induction ds generalizing d with
  | nil =>
    intro x hx
    rw [List.mem_singleton] at hx
    simp [hx]
  | cons e t ih =>
    intro x hx
    simp only [List.foldl_cons]
    rcases List.mem_cons.mp hx with h1 | hx2
    · calc t.foldl min (min d e) ≤ min d e := ih (min d e) _ (List.mem_cons_self _ _)
        _ ≤ d := min_le_left _ _
        _ = x := h1.symm
    · rcases List.mem_cons.mp hx2 with h2 | h3
      · calc t.foldl min (min d e) ≤ min d e := ih (min d e) _ (List.mem_cons_self _ _)
          _ ≤ e := min_le_right _ _
          _ = x := h2.symm
      · exact ih (min d e) x (List.mem_cons_of_mem _ h3)

theorem foldl_min_mem (ds : List Nat) (d : Nat) : ds.foldl min d ∈ d :: ds := by
  induction ds generalizing d with
  | nil => simp
  | cons e t ih =>
    simp only [List.foldl_cons]
    rcases List.mem_cons.mp (ih (min d e)) with h | h
    · rcases min_choice d e with h2 | h2
      · rw [h, h2]; exact List.mem_cons_self _ _
      · rw [h, h2]; exact List.mem_cons_of_mem _ (List.mem_cons_self _ _)
    · exact List.mem_cons_of_mem _ (List.mem_cons_of_mem _ h)

theorem le_foldl_max (ds : List Nat) (d : Nat) :
    ∀ x ∈ d :: ds, x ≤ ds.foldl max d := by
  induction ds generalizing d with
  | nil =>
    intro x hx
    rw [List.mem_singleton] at hx
    simp [hx]
  | cons e t ih =>
    intro x hx
    simp only [List.foldl_cons]
    rcases List.mem_cons.mp hx with h1 | hx2
    · calc x = d := h1
        _ ≤ max d e := le_max_left _ _
        _ ≤ t.foldl max (max d e) := ih (max d e) _ (List.mem_cons_self _ _)
    · rcases List.mem_cons.mp hx2 with h2 | h3
      · calc x = e := h2
          _ ≤ max d e := le_max_right _ _
          _ ≤ t.foldl max (max d e) := ih (max d e) _ (List.mem_cons_self _ _)
      · exact ih (max d e) x (List.mem_cons_of_mem _ h3)

theorem foldl_max_mem (ds : List Nat) (d : Nat) : ds.foldl max d ∈ d :: ds := by
  induction ds generalizing d with
  | nil => simp
  | cons e t ih =>
    simp only [List.foldl_cons]
    rcases List.mem_cons.mp (ih (max d e)) with h | h
    · rcases max_choice d e with h2 | h2
      · rw [h, h2]; exact List.mem_cons_self _ _
      · rw [h, h2]; exact List.mem_cons_of_mem _ (List.mem_cons_self _ _)
    · exact List.mem_cons_of_mem _ (List.mem_cons_of_mem _ h)

theorem length_catFilter_le (col : OrderRow → Option String) (sel : String)
    (df : List OrderRow) : (catFilter col sel df).length ≤ df.length := by
  unfold catFilter
  split
  · exact Nat.le_refl _
  · exact List.length_filter_le _ _

theorem pdDiv_zero_nonfinite (p : Rat) :
    (pdDiv p 0).isFinite = false ∧ pdDiv p 0 ≠ PFloat.finite 0 := by
  unfold pdDiv
  rw [if_neg (fun hc => hc rfl)]
  by_cases hp : p = 0
  · rw [if_pos hp]
    exact ⟨rfl, by decide⟩
  · rw [if_neg hp]
    by_cases hp2 : 0 < p
    · rw [if_pos hp2]
      exact ⟨rfl, by decide⟩
    · rw [if_neg hp2]
      exact ⟨rfl, by decide⟩

theorem dailyGrouped_eq (dtf : List OrderRow) (h : dtf.isEmpty = false) :
    dailyGrouped dtf =
      (sortKeys (dtf.map (·.orderDate))).map fun d =>
        ⟨d, total_sales (dateGroup dtf d), total_quantity (dateGroup dtf d),
          total_profit (dateGroup dtf d),
          pdDiv (total_profit (dateGroup dtf d)) (total_sales (dateGroup dtf d))⟩ := by
  simp [dailyGrouped, h]

theorem map_orderDate_dailyGrouped (dtf : List OrderRow) (h : dtf.isEmpty = false) :
    (dailyGrouped dtf).map (·.orderDate) = sortKeys (dtf.map (·.orderDate)) := by
  rw [dailyGrouped_eq dtf h, List.map_map]
  exact List.map_id' _

/-! ### Example data used by the witnesses -/

/-- Example row from spec section 8. -/
def exRowA : OrderRow :=
  ⟨20230101, some "West", some "CA", some "Furniture", some "Chairs",
    "Chair A", 100, 2, 20⟩

/-- Example row from spec section 8. -/
def exRowB : OrderRow :=
  ⟨20230101, some "West", some "CA", some "Furniture", some "Chairs",
    "Chair B", 50, 1, -5⟩

/-- The two-row example dataset of spec section 8. -/
def exDf : List OrderRow := [exRowA, exRowB]

/-- Filter selections naming a region absent from `exDf`, so the
categorical filters leave nothing. -/
def exParamsNone : Params := ⟨"Nowhere", "All", "All", "All", 0, 99999999, "Sales"⟩

/-- A row in a second region, to distinguish narrowed option lists from
full-dataset option lists. -/
def exRowC : OrderRow :=
  ⟨20230102, some "East", some "NY", some "Technology", some "Phones",
    "Phone C", 200, 1, 30⟩

/-- A three-row dataset spanning two regions and two states. -/
def exDf2 : List OrderRow := [exRowA, exRowB, exRowC]

/-! ### Claim theorems -/

/-- C2: the scalar Margin Rate of the totals equals total Profit divided
by total Sales when total Sales is nonzero, and equals 0 when total Sales
is 0; it is always a finite value — the guarded computation never divides
by zero, so it never raises and never produces `nan`. -/
theorem margin_rate_guarded (df : List OrderRow) :
    (margin_rate df).isFinite = true ∧
    (total_sales df = 0 → margin_rate df = PFloat.finite 0) ∧
    (total_sales df ≠ 0 →
      margin_rate df = PFloat.finite (total_profit df / total_sales df)) := by
  by_cases h : total_sales df = 0
  · refine ⟨?_, fun _ => ?_, fun hc => absurd h hc⟩ <;>
      simp [margin_rate, h, PFloat.isFinite]
  · refine ⟨?_, fun hc => absurd hc h, fun _ => ?_⟩ <;>
      simp [margin_rate, pdDiv, h, PFloat.isFinite]

/-- Witness for C2 at the empty dataset: total Sales is 0 there and the
Margin Rate evaluates to the finite value 0. -/
theorem margin_rate_guarded_witness :
    total_sales [] = 0 ∧ margin_rate [] = PFloat.finite 0 :=
  ⟨rfl, (margin_rate_guarded []).2.1 rfl⟩

/-- C7: along the fixed stage order Region, State, Category, Sub-Category,
the filtered row count is monotonically non-increasing, and the "All"
sentinel leaves the dataset unchanged at its stage. -/
theorem filtered_length_monotone (df : List OrderRow) (sr ss sc ssc : String) :
    (df_afterSubcat df sr ss sc ssc).length ≤ (df_afterCategory df sr ss sc).length ∧
    (df_afterCategory df sr ss sc).length ≤ (df_afterState df sr ss).length ∧
    (df_afterState df sr ss).length ≤ (df_afterRegion df sr).length ∧
    (df_afterRegion df sr).length ≤ df.length ∧
    (∀ col (d : List OrderRow), catFilter col "All" d = d) :=
  ⟨length_catFilter_le _ _ _, length_catFilter_le _ _ _, length_catFilter_le _ _ _,
    length_catFilter_le _ _ _, fun _ _ => if_pos rfl⟩

/-- Witness for C7 at the example dataset: the "All" selection leaves the
dataset unchanged. -/
theorem filtered_length_monotone_witness :
    catFilter (·.region) "All" exDf = exDf :=
  (filtered_length_monotone exDf "All" "All" "All" "All").2.2.2.2 _ exDf

/-- C9: running the pipeline twice with identical filter, date and KPI
inputs on the unmutated base dataset yields identical outputs — the
embedded run is a pure function of the base dataset and the parameters
(no filter stage mutates the base data), so both runs coincide. -/
theorem pipeline_idempotent (df : List OrderRow) (p : Params) :
    (runTwice df p).1 = (runTwice df p).2 := rfl

/-- C6: when the categorical filters leave no rows, nothing raises and the
whole run degenerates: totals Sales, Quantity, Profit are 0, Margin Rate
is the finite value 0, the daily series is empty and the top-10 list is
empty. -/
theorem empty_filtered_all_zero (df : List OrderRow) (p : Params)
    (h : df_afterSubcat df p.selRegion p.selState p.selCategory p.selSubcat = []) :
    pipeline df p = ⟨0, 0, 0, PFloat.finite 0, [], []⟩ := by
  unfold pipeline
  rw [h]
  rfl

/-- Witness for C6: filtering the example dataset by a region it does not
contain empties it, and the pipeline then returns all zeros and empty
tables. -/
theorem empty_filtered_all_zero_witness :
    df_afterSubcat exDf "Nowhere" "All" "All" "All" = [] ∧
    pipeline exDf exParamsNone = ⟨0, 0, 0, PFloat.finite 0, [], []⟩ :=
  ⟨rfl, empty_filtered_all_zero exDf exParamsNone rfl⟩

/-- C3: each downstream filter's option list is computed from the dataset
as narrowed by all upstream filters, never from the full dataset: a value
is a State option exactly when it occurs (non-null) among the rows kept by
the Region filter, a Category option exactly when it occurs among the rows
kept by Region and State, a Sub-Category option exactly when it occurs
among the rows kept by the first three filters; and every option list is
strictly sorted ascending, hence deduplicated. -/
theorem cascading_option_lists (df : List OrderRow) (sr ss sc : String) :
    (∀ x, x ∈ states df sr ↔ some x ∈ (df_afterRegion df sr).map (·.state)) ∧
    (states df sr).Sorted (· < ·) ∧
    (∀ x, x ∈ categories df sr ss ↔
      some x ∈ (df_afterState df sr ss).map (·.category)) ∧
    (categories df sr ss).Sorted (· < ·) ∧
    (∀ x, x ∈ subcats df sr ss sc ↔
      some x ∈ (df_afterCategory df sr ss sc).map (·.subCategory)) ∧
    (subcats df sr ss sc).Sorted (· < ·) :=
  ⟨fun _ => mem_optionsOf, sorted_lt_sortKeys _,
    fun _ => mem_optionsOf, sorted_lt_sortKeys _,
    fun _ => mem_optionsOf, sorted_lt_sortKeys _⟩

/-- Witness for C3: on the two-region dataset, choosing Region "West"
narrows the State options to the West states only — "NY" occurs in the
full dataset but not among the region-filtered rows, so it is not an
option. -/
theorem cascading_option_lists_witness :
    states exDf2 "West" = ["CA"] ∧
    some "NY" ∈ exDf2.map (·.state) ∧
    "NY" ∉ states exDf2 "West" :=
  ⟨rfl, by decide, fun hmem =>
    absurd (((cascading_option_lists exDf2 "West" "All" "All").1 "NY").mp hmem)
      (by decide)⟩

/-- C8: the date slider's bounds are the minimum and maximum Order Date of
the categorically filtered rows; when no rows remain they fall back to the
fixed calendar year 2020-01-01 .. 2020-12-31 instead of failing; and the
chosen date interval filters rows inclusively on both endpoints. -/
theorem date_bounds_and_inclusive (df : List OrderRow) (lo hi : Nat) :
    (df = [] → dateBounds df = (20200101, 20201231)) ∧
    (df ≠ [] →
      ((dateBounds df).1 ∈ df.map (·.orderDate) ∧
        (dateBounds df).2 ∈ df.map (·.orderDate) ∧
        ∀ r ∈ df, (dateBounds df).1 ≤ r.orderDate ∧
          r.orderDate ≤ (dateBounds df).2)) ∧
    (∀ r, r ∈ df_time_filtered lo hi df ↔
      (r ∈ df ∧ lo ≤ r.orderDate ∧ r.orderDate ≤ hi)) := by
  refine ⟨fun h => by subst h; rfl, fun h => ?_, fun r => ?_⟩
  · obtain ⟨a, rest, rfl⟩ := List.exists_cons_of_ne_nil h
    have hb : dateBounds (a :: rest) =
        ((rest.map (·.orderDate)).foldl min a.orderDate,
          (rest.map (·.orderDate)).foldl max a.orderDate) := rfl
    rw [hb]
    refine ⟨?_, ?_, fun r hr => ?_⟩
    · simpa using foldl_min_mem (rest.map (·.orderDate)) a.orderDate
    · simpa using foldl_max_mem (rest.map (·.orderDate)) a.orderDate
    · have hmem : r.orderDate ∈ a.orderDate :: rest.map (·.orderDate) := by
        simpa using List.mem_map_of_mem (·.orderDate) hr
      exact ⟨foldl_min_le _ _ _ hmem, le_foldl_max _ _ _ hmem⟩
  · simp [df_time_filtered, List.mem_filter, and_assoc]

/-- Witness for C8: the empty dataset falls back to the fixed 2020
calendar-year bounds; the example dataset's bounds are its actual min and
max dates; and a concrete row passes the inclusive date filter exactly
when its date lies in the closed interval. -/
theorem date_bounds_and_inclusive_witness :
    dateBounds [] = (20200101, 20201231) ∧
    dateBounds exDf2 = (20230101, 20230102) ∧
    (exRowC ∈ df_time_filtered 20230102 20230103 exDf2 ↔
      (exRowC ∈ exDf2 ∧ 20230102 ≤ exRowC.orderDate ∧
        exRowC.orderDate ≤ 20230103)) :=
  ⟨(date_bounds_and_inclusive [] 0 0).1 rfl, rfl,
    (date_bounds_and_inclusive exDf2 20230102 20230103).2.2 exRowC⟩

/-- A row template used to build datasets that differ only in product name
and metrics. -/
def mkRow (pn : String) (s : Rat) (q : Int) (pr : Rat) : OrderRow :=
  ⟨20230101, some "West", some "CA", some "Furniture", some "Chairs", pn, s, q, pr⟩

/-- Two products whose Sales order ("A" first) is the reverse of their
Profit order ("B" first). -/
def exC1 : List OrderRow := [mkRow "A" 100 1 1, mkRow "B" 50 1 40]

/-- Eleven rows with distinct products and pairwise distinct Sales, so the
sorted product table has an 11th-ranked entry. -/
def exTop : List OrderRow :=
  [mkRow "a" 1 1 0, mkRow "b" 2 1 0, mkRow "c" 3 1 0, mkRow "d" 4 1 0,
    mkRow "e" 5 1 0, mkRow "f" 6 1 0, mkRow "g" 7 1 0, mkRow "h" 8 1 0,
    mkRow "i" 9 1 0, mkRow "j" 10 1 0, mkRow "k" 11 1 0]

/-- A row with zero Sales (and a loss), putting a zero-Sales date group in
the dataset. -/
def exRowZ : OrderRow :=
  ⟨20230103, some "West", some "CA", some "Furniture", some "Tables",
    "Free Sample", 0, 1, -2⟩

/-- A one-row dataset whose single date group has summed Sales 0. -/
def exDfZ : List OrderRow := [exRowZ]

/-- C5: on a nonempty time-filtered dataset, the daily table's dates are
strictly ascending and are exactly the distinct Order Dates of the input;
each row carries the sums of Sales, Quantity and Profit over its date
group, and whenever a date's summed Sales is nonzero its Margin Rate is
that date's summed Profit divided by its summed Sales. -/
theorem daily_grouped_correct (dtf : List OrderRow) (h : dtf ≠ []) :
    ((dailyGrouped dtf).map (·.orderDate)).Sorted (· < ·) ∧
    (∀ d, d ∈ (dailyGrouped dtf).map (·.orderDate) ↔ d ∈ dtf.map (·.orderDate)) ∧
    ∀ r ∈ dailyGrouped dtf,
      r.sales = total_sales (dateGroup dtf r.orderDate) ∧
      r.quantity = total_quantity (dateGroup dtf r.orderDate) ∧
      r.profit = total_profit (dateGroup dtf r.orderDate) ∧
      (r.sales ≠ 0 → r.marginRate = PFloat.finite (r.profit / r.sales)) := by
  have hne : dtf.isEmpty = false := by simpa [List.isEmpty_iff] using h
  refine ⟨?_, fun d => ?_, fun r hr => ?_⟩
  · rw [map_orderDate_dailyGrouped dtf hne]
    exact sorted_lt_sortKeys _
  · rw [map_orderDate_dailyGrouped dtf hne]
    exact mem_sortKeys
  · rw [dailyGrouped_eq dtf hne] at hr
    obtain ⟨d, hd2, rfl⟩ := List.mem_map.mp hr
    refine ⟨rfl, rfl, rfl, fun hs => ?_⟩
    show pdDiv (total_profit (dateGroup dtf d)) (total_sales (dateGroup dtf d)) = _
    unfold pdDiv
    rw [if_pos hs]

/-- Witness for C5: on the two-row example dataset the daily table has the
single date 2023-01-01, strictly sorted, covering exactly the input
dates. -/
theorem daily_grouped_correct_witness :
    exDf ≠ [] ∧ ((dailyGrouped exDf).map (·.orderDate)).Sorted (· < ·) ∧
    (20230101 ∈ (dailyGrouped exDf).map (·.orderDate) ↔
      20230101 ∈ exDf.map (·.orderDate)) :=
  ⟨by decide, (daily_grouped_correct exDf (by decide)).1,
    (daily_grouped_correct exDf (by decide)).2.1 20230101⟩

/-- C10: the per-date Margin Rate division is unguarded — every daily row
whose summed Sales is 0 carries a non-finite Margin Rate (`nan` or a
signed infinity, never 0), unlike the totals computation, which guards the
same division and returns 0 whenever total Sales is 0. -/
theorem daily_margin_unguarded (dtf : List OrderRow) (r : DailyRow)
    (hr : r ∈ dailyGrouped dtf) (h0 : r.sales = 0) :
    r.marginRate.isFinite = false ∧ r.marginRate ≠ PFloat.finite 0 ∧
    (∀ df : List OrderRow, total_sales df = 0 →
      margin_rate df = PFloat.finite 0) := by
  cases he : dtf.isEmpty with
  | true =>
    rw [show dailyGrouped dtf = [] by simp [dailyGrouped, he]] at hr
    exact absurd hr (List.not_mem_nil r)
  | false =>
    rw [dailyGrouped_eq dtf he] at hr
    obtain ⟨d, hd2, rfl⟩ := List.mem_map.mp hr
    have hs0 : total_sales (dateGroup dtf d) = 0 := h0
    refine ⟨?_, ?_, fun df hdf => by simp [margin_rate, hdf]⟩
    · show (pdDiv (total_profit (dateGroup dtf d))
          (total_sales (dateGroup dtf d))).isFinite = false
      rw [hs0]
      exact (pdDiv_zero_nonfinite _).1
    · show pdDiv (total_profit (dateGroup dtf d))
          (total_sales (dateGroup dtf d)) ≠ PFloat.finite 0
      rw [hs0]
      exact (pdDiv_zero_nonfinite _).2

/-- Witness for C10: the one-row dataset with Sales 0 and Profit -2
produces a daily row whose Margin Rate is `-inf` — non-finite and not 0 —
so the unguarded division-by-zero branch is reachable. -/
theorem daily_margin_unguarded_witness :
    (⟨20230103, 0, 1, -2, PFloat.negInf⟩ : DailyRow) ∈ dailyGrouped exDfZ ∧
    PFloat.negInf.isFinite = false ∧ PFloat.negInf ≠ PFloat.finite 0 := by
  have hdg : dailyGrouped exDfZ = [⟨20230103, 0, 1, -2, PFloat.negInf⟩] := by
    norm_num [dailyGrouped, sortKeys, exDfZ, exRowZ, dateGroup, total_sales,
      total_quantity, total_profit, pdDiv, List.dedup]
  have hmem : (⟨20230103, 0, 1, -2, PFloat.negInf⟩ : DailyRow) ∈ dailyGrouped exDfZ := by
    rw [hdg]
    exact List.mem_singleton_self _
  exact ⟨hmem,
    (daily_margin_unguarded exDfZ ⟨20230103, 0, 1, -2, PFloat.negInf⟩ hmem rfl).1,
    (daily_margin_unguarded exDfZ ⟨20230103, 0, 1, -2, PFloat.negInf⟩ hmem rfl).2.1⟩

theorem product_sales_exC1_eval :
    product_sales exC1 = [⟨"A", 100⟩, ⟨"B", 50⟩] := by
  norm_num [product_sales, product_sales_sorted, sortKeys, exC1, mkRow,
    productGroup, total_sales, bySalesDesc, List.dedup, List.filter_cons,
    List.filter_nil, decide_eq_true_eq, show ("B" : String) ≠ "A" by decide,
    show ("A" : String) ≠ "B" by decide]

theorem claimedTopProducts_exC1_eval :
    claimedTopProducts exC1 "Profit" = ["B", "A"] := by
  norm_num [claimedTopProducts, claimedKpiValue, sortKeys, exC1, mkRow,
    productGroup, total_sales, total_quantity, total_profit, byValDesc,
    List.dedup, List.filter_cons, List.filter_nil, decide_eq_true_eq,
    show ("B" : String) ≠ "A" by decide, show ("A" : String) ≠ "B" by decide,
    show ("Profit" : String) ≠ "Sales" by decide,
    show ("Profit" : String) ≠ "Quantity" by decide]

/-- C1 counterexample: on a concrete dataset, with "Profit" selected among
the KPI options, the code's top-N table is ["A", "B"] (ordered by summed
Sales) while the 10 products with the largest selected KPI in descending
order would be ["B", "A"]; the two disagree, so the top-N aggregation does
not return the top products by the selected KPI. -/
theorem top10_ignores_selected_kpi :
    "Profit" ∈ kpi_options ∧
    (product_sales exC1).map (·.productName) = ["A", "B"] ∧
    claimedTopProducts exC1 "Profit" = ["B", "A"] ∧
    (product_sales exC1).map (·.productName) ≠ claimedTopProducts exC1 "Profit" := by
  refine ⟨by decide, by rw [product_sales_exC1_eval]; rfl,
    claimedTopProducts_exC1_eval, ?_⟩
  rw [product_sales_exC1_eval, claimedTopProducts_exC1_eval]
  decide

/-- C1 amended: the top-N product aggregation groups the time-filtered
dataset by Product Name and sums only Sales; it returns up to 10 products
with the largest summed Sales (any product left out has summed Sales at
most that of every returned row), with distinct product names, regardless
of the selected KPI — the KPI radio choice only selects the line-chart
column and leaves the top-10 table unchanged. -/
theorem top10_by_sales_only (dtf df : List OrderRow) (p : Params) (k : String) :
    (∀ r ∈ product_sales dtf,
      r.sales = total_sales (productGroup dtf r.productName)) ∧
    ((product_sales dtf).map (·.productName)).Nodup ∧
    (∀ r ∈ product_sales dtf, ∀ q ∈ product_sales_sorted dtf,
      q.productName ∉ (product_sales dtf).map (·.productName) →
        q.sales ≤ r.sales) ∧
    (pipeline df p).top10 =
      (pipeline df ⟨p.selRegion, p.selState, p.selCategory, p.selSubcat,
        p.dateLo, p.dateHi, k⟩).top10 := by
  have hkpi : (pipeline df p).top10 =
      (pipeline df ⟨p.selRegion, p.selState, p.selCategory, p.selSubcat,
        p.dateLo, p.dateHi, k⟩).top10 := rfl
  by_cases he : dtf.isEmpty
  · have hps : product_sales dtf = [] := by simp [product_sales, he]
    rw [hps]
    exact ⟨by simp, by simp, by simp, hkpi⟩
  · have he2 : dtf.isEmpty = false := by simpa using he
    have hps : product_sales dtf = (product_sales_sorted dtf).take 10 := by
      simp [product_sales, he2]
    have hperm : List.Perm (product_sales_sorted dtf)
        ((sortKeys (dtf.map (·.productName))).map
          (fun pn => (⟨pn, total_sales (productGroup dtf pn)⟩ : ProductSales))) :=
      List.perm_insertionSort _ _
    have hsorted : (product_sales_sorted dtf).Sorted bySalesDesc :=
      List.sorted_insertionSort _ _
    refine ⟨?_, ?_, ?_, hkpi⟩
    · intro r hr
      have hrs : r ∈ product_sales_sorted dtf := by
        rw [hps] at hr
        exact List.mem_of_mem_take hr
      obtain ⟨pn, hpn, rfl⟩ := List.mem_map.mp (hperm.subset hrs)
      rfl
    · have hmapg : ((sortKeys (dtf.map (·.productName))).map
          (fun pn => (⟨pn, total_sales (productGroup dtf pn)⟩ : ProductSales))).map
            (·.productName) = sortKeys (dtf.map (·.productName)) := by
        rw [List.map_map]
        exact List.map_id' _
      have hnodupFull : ((product_sales_sorted dtf).map (·.productName)).Nodup := by
        have hp2 := (hperm.map (·.productName))
        rw [hmapg] at hp2
        exact hp2.nodup_iff.mpr (nodup_sortKeys _)
      rw [hps, List.map_take]
      exact hnodupFull.sublist (List.take_sublist _ _)
    · intro r hr q hq hnotin
      have hrt : r ∈ (product_sales_sorted dtf).take 10 := by
        rw [← hps]
        exact hr
      have hq_nottake : q ∉ (product_sales_sorted dtf).take 10 := by
        intro hqtake
        exact hnotin (by rw [hps]; exact List.mem_map_of_mem _ hqtake)
      have hq_drop : q ∈ (product_sales_sorted dtf).drop 10 := by
        rw [← List.take_append_drop 10 (product_sales_sorted dtf)] at hq
        rcases List.mem_append.mp hq with h | h
        · exact absurd h hq_nottake
        · exact h
      exact pairwise_take_drop hsorted 10 r hrt q hq_drop

/-- Witness for the amended C1: on the two-product dataset the first
returned row is ("A", 100), and its Sales equals the summed Sales of
product "A". -/
theorem top10_by_sales_only_witness :
    (⟨"A", 100⟩ : ProductSales) ∈ product_sales exC1 ∧
    (⟨"A", 100⟩ : ProductSales).sales = total_sales (productGroup exC1 "A") := by
  have hmem : (⟨"A", 100⟩ : ProductSales) ∈ product_sales exC1 := by
    rw [product_sales_exC1_eval]
    exact List.mem_cons_self _ _
  exact ⟨hmem, (top10_by_sales_only exC1 exC1 exParamsNone "Sales").1 _ hmem⟩

/-- C4: the top-10-by-Sales table has at most 10 rows, is sorted in
descending order of summed Sales, and when an 11th-ranked product exists
in the full sorted product table, every returned row's Sales is at least
the 11th-ranked product's Sales. -/
theorem top10_shape (dtf : List OrderRow) :
    (product_sales dtf).length ≤ 10 ∧
    (product_sales dtf).Sorted bySalesDesc ∧
    (∀ r ∈ product_sales dtf, 10 < (product_sales_sorted dtf).length →
      ((product_sales_sorted dtf).getD 10 ⟨"", 0⟩).sales ≤ r.sales) := by
  by_cases he : dtf.isEmpty
  · have hps : product_sales dtf = [] := by simp [product_sales, he]
    rw [hps]
    exact ⟨by simp, List.sorted_nil, by simp⟩
  · have he2 : dtf.isEmpty = false := by simpa using he
    have hps : product_sales dtf = (product_sales_sorted dtf).take 10 := by
      simp [product_sales, he2]
    have hsorted : (product_sales_sorted dtf).Sorted bySalesDesc :=
      List.sorted_insertionSort _ _
    refine ⟨?_, ?_, ?_⟩
    · rw [hps]
      exact List.length_take_le _ _
    · rw [hps]
      exact hsorted.sublist (List.take_sublist _ _)
    · intro r hr hlen
      have hrt : r ∈ (product_sales_sorted dtf).take 10 := by
        rw [← hps]
        exact hr
      have h0lt : 0 < ((product_sales_sorted dtf).drop 10).length := by
        rw [List.length_drop]
        omega
      have hEq : ((product_sales_sorted dtf).drop 10).get ⟨0, h0lt⟩ =
          (product_sales_sorted dtf).get ⟨10, hlen⟩ := by
        simp [List.get_eq_getElem]
      have hmem : (product_sales_sorted dtf).get ⟨10, hlen⟩ ∈
          (product_sales_sorted dtf).drop 10 := by
        rw [← hEq]
        exact ((product_sales_sorted dtf).drop 10).get_mem _ _
      have hgd : (product_sales_sorted dtf).getD 10 ⟨"", 0⟩ =
          (product_sales_sorted dtf).get ⟨10, hlen⟩ := by
        simp [List.getD_eq_getElem?_getD, List.getElem?_eq_getElem hlen,
          List.get_eq_getElem]
      rw [hgd]
      exact pairwise_take_drop hsorted 10 r hrt _ hmem

/-- Witness for C4: the 11-product dataset has an 11th-ranked product, and
the first returned row's Sales is at least the 11th-ranked product's
Sales. -/
theorem top10_shape_witness :
    10 < (product_sales_sorted exTop).length ∧
    ((product_sales_sorted exTop).getD 10 ⟨"", 0⟩).sales ≤
      ((product_sales exTop).getD 0 ⟨"", 0⟩).sales := by
  have hlen11 : (product_sales_sorted exTop).length = 11 := by
    have hp : (product_sales_sorted exTop).length =
        ((sortKeys (exTop.map (·.productName))).map
          (fun pn => (⟨pn, total_sales (productGroup exTop pn)⟩ : ProductSales))).length :=
      (List.perm_insertionSort _ _).length_eq
    have hq : (sortKeys (exTop.map (·.productName))).length =
        ((exTop.map (·.productName)).dedup).length :=
      (List.perm_insertionSort _ _).length_eq
    rw [hp, List.length_map, hq]
    decide
  have hlen : 10 < (product_sales_sorted exTop).length := by
    rw [hlen11]
    omega
  have hps : product_sales exTop = (product_sales_sorted exTop).take 10 := by
    simp [product_sales, show exTop.isEmpty = false from rfl]
  have hlen0 : 0 < (product_sales exTop).length := by
    rw [hps, List.length_take, hlen11]
    omega
  have hmem : (product_sales exTop).getD 0 ⟨"", 0⟩ ∈ product_sales exTop := by
    have hgd : (product_sales exTop).getD 0 ⟨"", 0⟩ =
        (product_sales exTop).get ⟨0, hlen0⟩ := by
      simp [List.getD_eq_getElem?_getD, List.getElem?_eq_getElem hlen0,
        List.get_eq_getElem]
    rw [hgd]
    exact (product_sales exTop).get_mem _ _
  exact ⟨hlen, (top10_shape exTop).2.2 _ hmem hlen⟩

end SuperStore
